import Mathlib

/-!
# Verification of the `logger`/`logx` span-lifecycle and field-projection engine

Shallow embedding of the repository's Go sources (the `package logger` revision
carrying `MaxSpan`/`spanCount`/`startSpan`, i.e. the second unit of
`src/unnamed/part_003`, together with `src/field.go`, the projector in
`src/unnamed/part_000`, and the zap wiring in `src/unnamed/part_001`).

Modelling conventions, stated once here:

* Go `context.Context` values are immutable; we model the two keys the code
  uses (the otel current-span slot and `loggerSpanContextKey`) as an immutable
  `Ctx` record.  `context.WithValue` overwrites a slot in a copy.
* The mutable world (the zap sink, the otel span table, the package-level
  `spanCount` map, the snapshot `config`) is an explicit `State` threaded
  through every operation.
* otel SDK spans (`go.opentelemetry.io/otel` v1.3.0, per the module file):
  a recording span drops `AddEvent`/`SetAttributes`/`RecordError` once `End`
  has been called (`IsRecording` is false after `End`), and a second `End` is
  ignored.  The SDK `IDGenerator` (random, always valid and distinct) is
  abstracted by a deterministic counter producing distinct nonzero hex ids.
  The noop tracer (`NewNoopTracerProvider`, otel v1.3.0) carries a
  non-recording parent span through and otherwise returns the zero-identity
  noop span.
* `md5` (used only to derive `spanCount` keys) is abstracted as an injective
  key derivation: collisions are assumed absent, as everywhere in practice.
* Wall-clock values are threaded as data: the span-name timestamp suffix is a
  `clock` string in the state, `time.Now().UnixNano()` is a `Nat` argument,
  and `math/rand` draws are an argument `r : Nat → Nat` whose values the code
  reduces into `[0,15)` via `Intn 15` (modelled as `% 15`, which is the
  identity on every value `Intn` can actually return).
* A Go `float64` is never computed with here, only copied between sinks, so
  it is embedded as an opaque bit pattern `F64`.  A Go `interface \x7b \x7d`
  ("any") value matters to this layer only through the outcome of
  `encoding/json.Marshal` on it, so it is embedded as that outcome
  (`marshal : Option String`, `none` meaning Marshal returned an error).
-/

namespace Logx

/-- Opaque `float64` payload: the code only copies floats, never computes. -/
structure F64 where
  bits : Nat
deriving DecidableEq

/-- A Go `interface` value as seen by this layer: the outcome of
`encoding/json.Marshal` on it (`none` = Marshal errored), plus nothing else,
because the code either JSON-encodes it or forwards it opaquely. -/
structure AnyVal where
  marshal : Option String
deriving DecidableEq

/-- `FieldType` tags from `src/field.go` (the `iota` enumeration). -/
inductive FieldType
  | nnknownType
  | boolType
  | boolSliceType
  | intType
  | intSliceType
  | int64Type
  | int64SliceType
  | float64Type
  | float64SliceType
  | stringType
  | stringSliceType
  | stringerType
  | anyType
  | errType
deriving DecidableEq

/-- `Field` struct from `src/field.go`.  Go's `Type` field is spelled `Typ`
(`Type` is reserved in Lean); the `Bool`/`String`/`Float64`/`Any` payload
fields are spelled `BoolV`/`StringV`/`Float64V`/`AnyV` so they do not collide
with core types or with the constructor functions of the same names.
All payloads default to Go zero values, as Go struct literals do. -/
structure Field where
  Key : String := ""
  Typ : FieldType := .nnknownType
  BoolV : Bool := false
  Bools : List Bool := []
  Integer : Int := 0
  Integers : List Int := []
  StringV : String := ""
  Float64V : F64 := ⟨0⟩
  Integer64 : Int := 0
  Integer64s : List Int := []
  Strings : List String := []
  Float64s : List F64 := []
  AnyV : AnyVal := ⟨none⟩
deriving DecidableEq

/-- Go `func Bool(key string, val bool) Field`. -/
protected def Field.Bool (key : String) (val : Bool) : Field :=
  { Key := key, Typ := .boolType, BoolV := val }

/-- Go `func BoolSlice(key string, val []bool) Field`. -/
protected def Field.BoolSlice (key : String) (val : List Bool) : Field :=
  { Key := key, Typ := .boolSliceType, Bools := val }

/-- Go `func Int(key string, val int) Field`. -/
protected def Field.Int (key : String) (val : Int) : Field :=
  { Key := key, Typ := .intType, Integer := val }

/-- Go `func IntSlice(key string, val []int) Field`. -/
protected def Field.IntSlice (key : String) (val : List Int) : Field :=
  { Key := key, Typ := .intSliceType, Integers := val }

/-- Go `func Int64(key string, val int64) Field`. -/
protected def Field.Int64 (key : String) (val : Int) : Field :=
  { Key := key, Typ := .int64Type, Integer64 := val }

/-- Go `func Int64Slice(key string, val []int64) Field`. -/
protected def Field.Int64Slice (key : String) (val : List Int) : Field :=
  { Key := key, Typ := .int64SliceType, Integer64s := val }

/-- Go `func Float64(key string, val float64) Field`. -/
protected def Field.Float64 (key : String) (val : F64) : Field :=
  { Key := key, Typ := .float64Type, Float64V := val }

/-- Go `func Float64Slice(key string, val []float64) Field`. -/
protected def Field.Float64Slice (key : String) (val : List F64) : Field :=
  { Key := key, Typ := .float64SliceType, Float64s := val }

/-- Go `func String(key string, val string) Field`. -/
protected def Field.String (key : String) (val : String) : Field :=
  { Key := key, Typ := .stringType, StringV := val }

/-- Go `func StringSlice(key string, val []string) Field`. -/
protected def Field.StringSlice (key : String) (val : List String) : Field :=
  { Key := key, Typ := .stringSliceType, Strings := val }

/-- Go `func Stringer(key string, val fmt.Stringer) Field` — the stringer is
evaluated at construction (`val.String()`), so its rendering is the payload. -/
protected def Field.Stringer (key : String) (rendered : String) : Field :=
  { Key := key, Typ := .stringerType, StringV := rendered }

/-- Go `func Any(key string, val interface) Field`. -/
protected def Field.Any (key : String) (val : AnyVal) : Field :=
  { Key := key, Typ := .anyType, AnyV := val }

/-- Go `func Err(err error) Field` (a `nil` error is replaced by `"nil"`). -/
protected def Field.Err (msg : Option String) : Field :=
  { Key := "error", Typ := .stringType, StringV := msg.getD "nil" }

/-! ## Tracing-attribute sink (`go.opentelemetry.io/otel/attribute`) -/

/-- Values of otel `attribute.KeyValue`.  `attribute.Int`/`attribute.IntSlice`
widen Go `int` to `int64`, hence share the int64 constructors. -/
inductive AttrValue
  | boolV (b : Bool)
  | boolsV (bs : List Bool)
  | int64V (i : Int)
  | int64sV (is : List Int)
  | float64V (f : F64)
  | float64sV (fs : List F64)
  | stringV (s : String)
  | stringsV (ss : List String)
deriving DecidableEq

/-- otel `attribute.KeyValue`. -/
structure KeyValue where
  Key : String
  Value : AttrValue
deriving DecidableEq

/-! ## Structured-log sink (`go.uber.org/zap`) -/

/-- Values of `zapcore.Field` as produced by the `zap.X` constructors used in
the sources.  `zap.Int` widens to `int64`; `zap.Any` forwards the raw value
unencoded; `zap.Stack` captures a stack rendering as a string. -/
inductive ZapValue
  | boolV (b : Bool)
  | boolsV (bs : List Bool)
  | int64V (i : Int)
  | intsV (is : List Int)
  | int64sV (is : List Int)
  | float64V (f : F64)
  | float64sV (fs : List F64)
  | stringV (s : String)
  | stringsV (ss : List String)
  | anyV (a : AnyVal)
deriving DecidableEq

/-- `zapcore.Field`. -/
structure ZapField where
  Key : String
  Value : ZapValue
deriving DecidableEq

/-- `FieldsToKeyValues` from the `package logger` trace file
(`src/unnamed/part_000`, lines 80-114): the projection of `Field`s into otel
span attributes.  The `anyType` arm JSON-marshals and silently drops the
field when Marshal errors; `stringerType` projects the captured rendering
(`attribute.Stringer` evaluates the stringer); unknown/err tags are dropped. -/
def FieldsToKeyValues (fields : List Field) : List KeyValue :=
  fields.foldl (fun kvs f =>
    match f.Typ with
    | .boolType => kvs ++ [⟨f.Key, .boolV f.BoolV⟩]
    | .boolSliceType => kvs ++ [⟨f.Key, .boolsV f.Bools⟩]
    | .intType => kvs ++ [⟨f.Key, .int64V f.Integer⟩]
    | .intSliceType => kvs ++ [⟨f.Key, .int64sV f.Integers⟩]
    | .int64Type => kvs ++ [⟨f.Key, .int64V f.Integer64⟩]
    | .int64SliceType => kvs ++ [⟨f.Key, .int64sV f.Integer64s⟩]
    | .float64Type => kvs ++ [⟨f.Key, .float64V f.Float64V⟩]
    | .float64SliceType => kvs ++ [⟨f.Key, .float64sV f.Float64s⟩]
    | .stringType => kvs ++ [⟨f.Key, .stringV f.StringV⟩]
    | .stringSliceType => kvs ++ [⟨f.Key, .stringsV f.Strings⟩]
    | .stringerType => kvs ++ [⟨f.Key, .stringV f.StringV⟩]
    | .anyType =>
        match f.AnyV.marshal with
        | some str => kvs ++ [⟨f.Key, .stringV str⟩]
        | none => kvs
    | _ => kvs) []

/-! ## Identifier generation (`randString`, `GenTraceID`, `GenSpanID`) -/

/-- The seed alphabet of `randString`. -/
def seed : String := "0123456789abcdef"

/-- The seed alphabet as a character list. -/
def seedChars : List Char := seed.data

/-- `randString(len)` from the logger file: `len` draws of
`seed[r.Intn(15)]`.  `r i` is the i-th draw of the `math/rand` source;
`Intn 15` constrains it into `[0,15)`, modelled as `% 15` (the identity on
every value `Intn` can return). -/
def randString (len : Nat) (r : Nat → Nat) : String :=
  String.mk ((List.range len).map (fun i => seedChars.getD (r i % 15) '0'))

/-- The digit loop of `strconv.FormatInt(n, 16)` (nonnegative case): emit
the lowest hex digit, divide by 16, repeat while the remainder is ≥ 16.
Fuel-structured (any fuel > log₁₆ n suffices) so it evaluates by
structural recursion. -/
def natToHexCore : Nat → Nat → List Char → List Char
  | 0, _, ds => ds
  | fuel + 1, n, ds =>
    let d := seedChars.getD (n % 16) '0'
    if n < 16 then d :: ds
    else natToHexCore fuel (n / 16) (d :: ds)

/-- Lowercase hex digits of a natural number, most significant first. -/
def natToHexAux (n : Nat) : List Char := natToHexCore (n + 1) n []

/-- `strconv.FormatInt(n, 16)` (nonnegative case). -/
def natToHex (n : Nat) : String := String.mk (natToHexAux n)

/-- `GenTraceID` (logger file, lines 820-827): the timestamp in hex,
right-padded with `'0'` to 16 characters, followed by 16 random characters. -/
def GenTraceID (nowUnixNano : Nat) (r : Nat → Nat) : String :=
  let stime := natToHex nowUnixNano
  let paddingLen := 16 - stime.length
  let stime := stime ++ String.mk (List.replicate paddingLen '0')
  stime ++ randString 16 r

/-- `GenSpanID` (logger file, lines 830-832). -/
def GenSpanID (r : Nat → Nat) : String := randString 16 r

/-- The right-padding applied to the hex timestamp by `GenTraceID`. -/
def padRight16 (s : String) : String :=
  s ++ String.mk (List.replicate (16 - s.length) '0')

/-! ## Span identity and context values -/

/-- An otel `SpanContext` reduced to what this layer reads from it: the
`String()` renderings of its trace id and span id (`TraceID().String()` hex
encodes the raw bytes, so an invalid id renders as all zeros). -/
structure SpanIdent where
  traceID : String
  spanID : String
deriving DecidableEq

/-- `TraceID().String()` of the zero (invalid) trace id: 32 zeros. -/
def zeroTraceID : String := String.mk (List.replicate 32 '0')

/-- `SpanID().String()` of the zero (invalid) span id: 16 zeros. -/
def zeroSpanID : String := String.mk (List.replicate 16 '0')

/-- An `oteltrace.Span` value as stored in Go interfaces and contexts:
either an SDK recording span (identity plus a reference into the mutable
span table), the non-recording remote span a `NewRootContext` stores, or the
zero-identity `noopSpan` of the noop tracer. -/
inductive SpanHandle
  | recording (sc : SpanIdent) (ref : Nat)
  | nonRecording (sc : SpanIdent)
  | noop
deriving DecidableEq

/-- `span.SpanContext()`. -/
def SpanHandle.spanContext : SpanHandle → SpanIdent
  | .recording sc _ => sc
  | .nonRecording sc => sc
  | .noop => ⟨zeroTraceID, zeroSpanID⟩

/-- `LoggerSpanContext` from the logger file (lines 539-544): the struct
stored *by value* under `loggerSpanContextKey`.  Counters default to Go zero
values. -/
structure LoggerSpanContext where
  span : SpanHandle
  startSpan : Bool := false
  warnCount : Int := 0
  errorCount : Int := 0
deriving DecidableEq

/-- A Go `context.Context` restricted to the two slots this code reads: the
otel current-span slot (written by `tracer.Start` and
`ContextWithRemoteSpanContext`) and the `loggerSpanContextKey` slot.
Contexts are immutable; derived contexts overwrite slots in a copy. -/
structure Ctx where
  otelSpan : Option SpanHandle := none
  lsc : Option LoggerSpanContext := none
deriving DecidableEq

/-- `context.Background()`. -/
def background : Ctx := {}

/-- `TraceID(ctx)` (logger file, lines 773-779). -/
def TraceID (ctx : Ctx) : String :=
  match ctx.lsc with
  | none => ""
  | some l => l.span.spanContext.traceID

/-- `SpanID(ctx)` (logger file, lines 782-788). -/
def SpanID (ctx : Ctx) : String :=
  match ctx.lsc with
  | none => ""
  | some l => l.span.spanContext.spanID

/-! ## Mutable world: span table, span-count table, log sink -/

/-- One span-level error record (`RecordError`, which the SDK stores as an
exception event). -/
structure SpanErr where
  msg : String
  attrs : List KeyValue
deriving DecidableEq

/-- One span event (`AddEvent`). -/
structure SpanEvent where
  name : String
  attrs : List KeyValue
deriving DecidableEq

/-- The mutable state of one SDK recording span.  Per otel v1.3.0 SDK
semantics, every mutator is dropped once `ended` is set. -/
structure SpanRec where
  sc : SpanIdent
  name : String := ""
  ended : Bool := false
  attrs : List KeyValue := []
  events : List SpanEvent := []
  errs : List SpanErr := []
deriving DecidableEq

/-- One structured log record as accepted by the zap core. -/
structure LogRecord where
  level : String
  msg : String
  fields : List ZapField
deriving DecidableEq

/-- `Config` from the logger file (lines 496-529), restricted to the fields
the embedded operations read.  Zero values as in Go. -/
structure Config where
  Debug : Bool := false
  EnableTrace : Bool := false
  Output : String := ""
  TracerProviderType : String := ""
  MaxSpan : Int := 0
deriving DecidableEq

/-- The package-level mutable state: `config` and `enable_log` snapshots, the
zap sink, the SDK span table (plus the deterministic stand-in for its random
id generator), the `spanCount` map, and the wall-clock rendering used in span
names. -/
structure State where
  config : Config := {}
  enable_log : Bool := false
  spans : List SpanRec := []
  spanCount : List (String × Int) := []
  logs : List LogRecord := []
  idSeq : Nat := 0
  clock : String := ""
deriving DecidableEq

/-- The pristine package state before any `Init`. -/
def initState : State := {}

/-- Go `_md5`, abstracted as an injective key derivation (md5 collisions are
assumed absent; nothing here depends on the digest itself). -/
def md5 (str : String) : String := "md5#" ++ str

/-- `sync.Map.Load` on the `spanCount.count` table. -/
def tblLoad (t : List (String × Int)) (k : String) : Option Int :=
  (t.find? (fun p => p.1 == k)).map (·.2)

/-- `sync.Map.Store` (upsert). -/
def tblStore (t : List (String × Int)) (k : String) (v : Int) : List (String × Int) :=
  if t.any (fun p => p.1 == k) then t.map (fun p => if p.1 == k then (k, v) else p)
  else t ++ [(k, v)]

/-- `sync.Map.Delete`. -/
def tblDelete (t : List (String × Int)) (k : String) : List (String × Int) :=
  t.filter (fun p => p.1 != k)

/-- `spanCountT.get` (logger file, lines 560-568). -/
def scGet (t : List (String × Int)) (traceID spanID : String) : Int :=
  (tblLoad t (md5 (traceID ++ spanID))).getD 0

/-- `spanCountT.set` (lines 571-574). -/
def scSet (t : List (String × Int)) (traceID spanID : String) (count : Int) :
    List (String × Int) :=
  tblStore t (md5 (traceID ++ spanID)) count

/-- `spanCountT.increase` (lines 577-580). -/
def scIncrease (t : List (String × Int)) (traceID spanID : String) :
    List (String × Int) :=
  scSet t traceID spanID (scGet t traceID spanID + 1)

/-- `spanCountT.delete` (lines 582-585). -/
def scDelete (t : List (String × Int)) (traceID spanID : String) :
    List (String × Int) :=
  tblDelete t (md5 (traceID ++ spanID))

/-! ## otel SDK span operations (v1.3.0 `recordingSpan` semantics) -/

/-- Apply `f` to span record `ref` of the table. -/
def updateSpan (st : State) (ref : Nat) (f : SpanRec → SpanRec) : State :=
  match st.spans.get? ref with
  | some sp => { st with spans := st.spans.set ref (f sp) }
  | none => st

/-- `span.AddEvent`: dropped on non-recording handles and on ended spans. -/
def spanAddEvent (st : State) (h : SpanHandle) (name : String)
    (attrs : List KeyValue) : State :=
  match h with
  | .recording _ ref =>
      updateSpan st ref (fun sp =>
        if sp.ended then sp else { sp with events := sp.events ++ [⟨name, attrs⟩] })
  | _ => st

/-- `span.SetAttributes`: appends (the SDK keeps the last value per key);
dropped on non-recording handles and on ended spans. -/
def spanSetAttributes (st : State) (h : SpanHandle) (attrs : List KeyValue) : State :=
  match h with
  | .recording _ ref =>
      updateSpan st ref (fun sp =>
        if sp.ended then sp else { sp with attrs := sp.attrs ++ attrs })
  | _ => st

/-- `span.RecordError`: stored as an exception event; dropped on
non-recording handles and on ended spans. -/
def spanRecordError (st : State) (h : SpanHandle) (msg : String)
    (attrs : List KeyValue) : State :=
  match h with
  | .recording _ ref =>
      updateSpan st ref (fun sp =>
        if sp.ended then sp else { sp with errs := sp.errs ++ [⟨msg, attrs⟩] })
  | _ => st

/-- `span.End`: sets the end time once; a second `End` is a no-op. -/
def spanEnd (st : State) (h : SpanHandle) : State :=
  match h with
  | .recording _ ref => updateSpan st ref (fun sp => { sp with ended := true })
  | _ => st

/-- Deterministic stand-ins for the SDK's random `IDGenerator`: distinct,
valid (nonzero), lowercase-hex identifiers. -/
def hexPadLeft (w : Nat) (n : Nat) : String :=
  let ds := natToHexAux n
  String.mk (List.replicate (w - ds.length) '0' ++ ds)

/-- Fresh 32-hex trace id for the `idSeq`-th generated id. -/
def sdkTraceID (n : Nat) : String := hexPadLeft 32 (n + 1)

/-- Fresh 16-hex span id for the `idSeq`-th generated id. -/
def sdkSpanID (n : Nat) : String := hexPadLeft 16 (n + 1)

/-- `provider.Tracer("").Start(ctx, name, WithAttributes(attrs))` for the
SDK tracer the `Init` wiring installs (sampling: the scenarios run with the
always-sampling `file` provider / ratio 1, so sampling is not modelled): a
valid parent span context in `ctx` fixes the child's trace id, otherwise both
ids are freshly generated; the new recording span starts with `attrs`. -/
def sdkTracerStart (st : State) (ctx : Ctx) (name : String)
    (attrs : List KeyValue) : SpanHandle × State :=
  let psc := (ctx.otelSpan.map SpanHandle.spanContext).getD ⟨zeroTraceID, zeroSpanID⟩
  let sc : SpanIdent :=
    if psc.traceID != zeroTraceID then ⟨psc.traceID, sdkSpanID st.idSeq⟩
    else ⟨sdkTraceID st.idSeq, sdkSpanID st.idSeq⟩
  (SpanHandle.recording sc st.spans.length,
   { st with
      spans := st.spans ++ [{ sc := sc, name := name, attrs := attrs }],
      idSeq := st.idSeq + 1 })

/-- `NewNoopTracerProvider().Tracer("").Start(ctx, name)` (otel v1.3.0): a
non-recording span already in the context is carried through unchanged,
anything else yields the zero-identity `noopSpan`. -/
def noopTracerStart (ctx : Ctx) : SpanHandle :=
  match ctx.otelSpan with
  | some (.nonRecording sc) => .nonRecording sc
  | _ => .noop

/-! ## zap sink -/

/-- zap severity numbers (`DebugLevel = -1`, …, `FatalLevel = 5`). -/
def zapLevelNum (level : String) : Int :=
  if level == "debug" then -1
  else if level == "info" then 0
  else if level == "warn" then 1
  else if level == "error" then 2
  else if level == "fatal" then 5
  else 0

/-- The level the zap core is built with (`src/unnamed/part_001`, lines
365-371 of the combined file): `InfoLevel` when `conf.Debug`, else
`ErrorLevel`. -/
def zapMinLevel (c : Config) : Int := if c.Debug then 0 else 2

/-- A write through the zap logger: the core drops records below its level. -/
def zapWrite (st : State) (level msg : String) (fields : List ZapField) : State :=
  if zapMinLevel st.config ≤ zapLevelNum level then
    { st with logs := st.logs ++ [⟨level, msg, fields⟩] }
  else st

/-- `FieldsToZapFields` (logger file, lines 851-888): prefixes the
`trace_id`/`span_id` correlation fields when nonempty, then maps each tag to
its zap constructor; the `anyType` arm forwards the raw value. -/
def FieldsToZapFields (ctx : Ctx) (fields : List Field) : List ZapField :=
  let kvs : List ZapField := []
  let kvs := if TraceID ctx != "" then kvs ++ [⟨"trace_id", .stringV (TraceID ctx)⟩] else kvs
  let kvs := if SpanID ctx != "" then kvs ++ [⟨"span_id", .stringV (SpanID ctx)⟩] else kvs
  fields.foldl (fun kvs f =>
    match f.Typ with
    | .boolType => kvs ++ [⟨f.Key, .boolV f.BoolV⟩]
    | .boolSliceType => kvs ++ [⟨f.Key, .boolsV f.Bools⟩]
    | .intType => kvs ++ [⟨f.Key, .int64V f.Integer⟩]
    | .intSliceType => kvs ++ [⟨f.Key, .intsV f.Integers⟩]
    | .int64Type => kvs ++ [⟨f.Key, .int64V f.Integer64⟩]
    | .int64SliceType => kvs ++ [⟨f.Key, .int64sV f.Integer64s⟩]
    | .float64Type => kvs ++ [⟨f.Key, .float64V f.Float64V⟩]
    | .float64SliceType => kvs ++ [⟨f.Key, .float64sV f.Float64s⟩]
    | .stringType => kvs ++ [⟨f.Key, .stringV f.StringV⟩]
    | .stringSliceType => kvs ++ [⟨f.Key, .stringsV f.Strings⟩]
    | .stringerType => kvs ++ [⟨f.Key, .stringV f.StringV⟩]
    | .anyType => kvs ++ [⟨f.Key, .anyV f.AnyV⟩]
    | _ => kvs) kvs

/-! ## The public API (logger file, lines 596-848) -/

/-- `Init(conf, attrs...)` (lines 596-628).  The propagator/provider wiring
is external I/O; what is modelled is the config snapshot, `enable_log` and
output normalisation, the `MaxSpan` default, and the `log.Fatal` on an
unsupported tracer-provider type (`none`). -/
def Init (conf : Config) (st : State) : Option State :=
  let st := { st with config := conf }
  let tpt := if conf.TracerProviderType == "" then "jaeger" else conf.TracerProviderType
  if st.config.EnableTrace && !(tpt == "jaeger" || tpt == "file") then none
  else
    let st :=
      if st.config.Output != "none" then
        let cfg := st.config
        let cfg :=
          if cfg.Output == "" || (cfg.Output != "file" && cfg.Output != "console") then
            { cfg with Output := "console" }
          else cfg
        { st with config := cfg, enable_log := true }
      else st
    let st :=
      if st.config.MaxSpan == 0 then { st with config := { st.config with MaxSpan := 200 } }
      else st
    some st

/-- `Start(ctx, spanName, spanStartOption...)` (lines 634-661).  Note that
both the ceiling lookup and the increment use the identity of the *parent*
context `ctx`, and that the increment only happens on the real-span branch. -/
def Start (ctx : Ctx) (spanName : String) (spanStartOption : List Field)
    (st : State) : Ctx × State :=
  let enableTrace :=
    if st.config.MaxSpan ≤ scGet st.spanCount (TraceID ctx) (SpanID ctx) then false
    else st.config.EnableTrace
  let spanName := spanName ++ " | " ++ st.clock
  if enableTrace then
    let res := sdkTracerStart st ctx spanName (FieldsToKeyValues spanStartOption)
    let st2 := { res.2 with spanCount := scIncrease res.2.spanCount (TraceID ctx) (SpanID ctx) }
    ({ otelSpan := some res.1, lsc := some { span := res.1, startSpan := true } }, st2)
  else
    let span := noopTracerStart ctx
    ({ otelSpan := some span, lsc := some { span := span, startSpan := true } }, st)

/-- `SetSpanAttr(ctx, attributes...)` (lines 664-675). -/
def SetSpanAttr (ctx : Ctx) (attributes : List Field) (st : State) : State :=
  match ctx.lsc with
  | none => st
  | some lsc =>
    if !lsc.startSpan then st
    else if st.config.EnableTrace then
      spanSetAttributes st lsc.span (FieldsToKeyValues attributes)
    else st

/-- `Debug(ctx, msg, attributes...)` (lines 678-692). -/
def Debug (ctx : Ctx) (msg : String) (attributes : List Field) (st : State) : State :=
  let st := if st.enable_log then zapWrite st "debug" msg (FieldsToZapFields ctx attributes) else st
  match ctx.lsc with
  | none => st
  | some lsc =>
    if !lsc.startSpan then st
    else if st.config.EnableTrace then
      spanAddEvent st lsc.span msg (FieldsToKeyValues attributes)
    else st

/-- `Info(ctx, msg, attributes...)` (lines 695-709). -/
def Info (ctx : Ctx) (msg : String) (attributes : List Field) (st : State) : State :=
  let st := if st.enable_log then zapWrite st "info" msg (FieldsToZapFields ctx attributes) else st
  match ctx.lsc with
  | none => st
  | some lsc =>
    if !lsc.startSpan then st
    else if st.config.EnableTrace then
      spanAddEvent st lsc.span msg (FieldsToKeyValues attributes)
    else st

/-- `Warn(ctx, msg, attributes...)` (lines 712-729).  The source increments
`loggerSpanContext.warnCount` on the struct *copy* fetched from the context,
publishes that copy's value as the `"warns"` attribute, and never stores the
copy back: the carried counter itself can never change. -/
def Warn (ctx : Ctx) (msg : String) (attributes : List Field) (st : State) : State :=
  let st := if st.enable_log then zapWrite st "warn" msg (FieldsToZapFields ctx attributes) else st
  match ctx.lsc with
  | none => st
  | some lsc =>
    if !lsc.startSpan then st
    else if st.config.EnableTrace then
      let warnCount := lsc.warnCount + 1
      let st := spanSetAttributes st lsc.span [⟨"warns", .int64V warnCount⟩]
      spanAddEvent st lsc.span msg (FieldsToKeyValues attributes)
    else st

/-- `Error(ctx, msg, attributes...)` (lines 732-750); same copy semantics for
`errorCount` as in `Warn`. -/
def Error (ctx : Ctx) (msg : String) (attributes : List Field) (st : State) : State :=
  let st := if st.enable_log then zapWrite st "error" msg (FieldsToZapFields ctx attributes) else st
  match ctx.lsc with
  | none => st
  | some lsc =>
    if !lsc.startSpan then st
    else if st.config.EnableTrace then
      let errorCount := lsc.errorCount + 1
      let st := spanSetAttributes st lsc.span [⟨"errors", .int64V errorCount⟩]
      spanRecordError st lsc.span msg (FieldsToKeyValues attributes)
    else st

/-- The outcome of a `Fatal` call: the new state, plus whether the process
exited (`logger.Fatal` calls `os.Exit(1)` after writing). -/
structure FatalResult where
  st : State
  exited : Bool := false
deriving DecidableEq

/-- `Fatal(ctx, msg, attributes...)` (lines 753-770).  The span-error
recording is deferred; `logger.Fatal` writes its record and then calls
`os.Exit(1)`, and deferred functions do not run on `os.Exit` — so with
logging enabled the process exits and the deferred `RecordError` never
executes.  Only when logging is disabled does the function return normally
and the deferred recording run. -/
def Fatal (ctx : Ctx) (msg : String) (attributes : List Field) (st : State) : FatalResult :=
  if st.enable_log then
    { st := zapWrite st "fatal" msg (FieldsToZapFields ctx attributes), exited := true }
  else
    match ctx.lsc with
    | none => { st := st }
    | some lsc =>
      if !lsc.startSpan then { st := st }
      else if st.config.EnableTrace then
        { st := spanRecordError st lsc.span msg (FieldsToKeyValues attributes) }
      else { st := st }

/-- `TraceIDFromHex` (otel v1.3.0 `trace.TraceIDFromHex`): 32 characters,
all lowercase hex, not all zero; returns the canonical rendering (= the
input, which is already canonical when valid). -/
def isLowerHexDigit (c : Char) : Bool :=
  ('a' ≤ c && c ≤ 'f') || ('0' ≤ c && c ≤ '9')

/-- The validity test shared by `TraceIDFromHex`/`SpanIDFromHex`: exact
length, lowercase hex characters only, and not the all-zero id. -/
def validIDHex (len : Nat) (h : String) : Bool :=
  h.length == len && h.data.all isLowerHexDigit && h.data.any (fun c => c != '0')

/-- otel `trace.TraceIDFromHex`. -/
def TraceIDFromHex (h : String) : Option String :=
  if validIDHex 32 h then some h else none

/-- otel `trace.SpanIDFromHex`. -/
def SpanIDFromHex (h : String) : Option String :=
  if validIDHex 16 h then some h else none

/-- `NewRootContext(traceID, spanID)` (lines 791-816): validates both ids,
then stores the remote (non-recording) span context in a fresh background
context.  Mirrors Go's `(ctx, err)` pair: the error is `some msg`. -/
def NewRootContext (traceID spanID : String) : Ctx × Option String :=
  match TraceIDFromHex traceID with
  | none => (background, some "invalid traceID")
  | some tID =>
    match SpanIDFromHex spanID with
    | none => (background, some "invalid spanID")
    | some sID =>
      ({ otelSpan := some (.nonRecording ⟨tID, sID⟩), lsc := none }, none)

/-- The opaque rendering `zap.Stack("stack")` captures. -/
def stackTrace : String := "goroutine stack"

/-- The fields of the error record `End` writes when it recovers a panic. -/
def panicLogFields (p : String) : List ZapField :=
  [⟨"recover", .stringV p⟩, ⟨"stack", .stringV stackTrace⟩]

/-- The outcome of an `End` call: the new state, plus `some v` when a panic
with value `v` escapes the call itself. -/
structure EndResult where
  st : State
  panicked : Option String := none
deriving DecidableEq

/-- The part of `End` after the `recover` block (lines 839-847).  The
source's `loggerSpanContext.startSpan = false` assigns to a local *copy* of
the struct fetched from the immutable context — a dead store with no
observable effect, so nothing models it.  Note the `spanCount` deletion is
keyed by the identity of the context being ended (the span's own ids), not by
the parent identity `Start` incremented under. -/
def endSpanPart (ctx : Ctx) (st : State) : State :=
  match ctx.lsc with
  | none => st
  | some lsc =>
    let st := if st.config.EnableTrace then spanEnd st lsc.span else st
    { st with spanCount := scDelete st.spanCount (TraceID ctx) (SpanID ctx) }

/-- `End(ctx)` (lines 835-848), as the deferred call of a traced function:
`pending` is the panic (if any) unwinding into it.  `recover()` consumes the
panic; the recovery branch calls `logger.Error` unconditionally, so when
logging was never enabled (`logger == nil`) `End` itself panics with a nil
dereference before reaching the span. -/
def End (ctx : Ctx) (pending : Option String) (st : State) : EndResult :=
  match pending with
  | none => { st := endSpanPart ctx st }
  | some p =>
    if st.enable_log then
      { st := endSpanPart ctx (zapWrite st "error" "panic" (panicLogFields p)) }
    else
      { st := st, panicked := some "nil pointer dereference" }

/-! ## Observation helpers used by the theorems -/

/-- Whether the span behind a handle no longer records, per otel SDK
semantics, in a given span table: a recording span is ended exactly when its
table record says so (a dangling reference records nothing either); remote
non-recording spans and the noop span never record. -/
def endedIn (spans : List SpanRec) : SpanHandle → Bool
  | .recording _ ref => ((spans.get? ref).map (fun sp => sp.ended)).getD true
  | _ => true

/-- Whether a span handle is a real (SDK recording) span. -/
def isRealSpan : SpanHandle → Bool
  | .recording _ _ => true
  | _ => false

/-- The table record of a handle's underlying span, if it has one. -/
def spanRecOf (st : State) (h : SpanHandle) : Option SpanRec :=
  match h with
  | .recording _ ref => st.spans.get? ref
  | _ => none

/-- The `startSpan` flag of the `LoggerSpanContext` carried by a context. -/
def carriedStartSpan (ctx : Ctx) : Option Bool :=
  ctx.lsc.map (·.startSpan)

/-- The span-count table entry stored under the identity of `ctx`. -/
def countEntryFor (st : State) (ctx : Ctx) : Option Int :=
  tblLoad st.spanCount (md5 (TraceID ctx ++ SpanID ctx))

/-! ## Concrete executions used by the claims -/

/-- A standard logging-and-tracing configuration: debug console logging, the
always-sampling `file` provider, span ceiling left to default. -/
def demoConf : Config :=
  { Debug := true, EnableTrace := true, Output := "console", TracerProviderType := "file" }

/-- The state right after `Init demoConf` (which succeeds). -/
def demoSt : State := (Init demoConf initState).getD initState

/-- A span started on the background context, then ended. -/
def c1run : Ctx × State := Start background "s" [] demoSt

/-- The state after `End` on that context (no panic pending). -/
def c1post : State := (End c1run.1 none c1run.2).st

/-- A span started on the background context, then warned on twice. -/
def c4run : Ctx × State := Start background "w" [] demoSt

/-- The state after the two `Warn` calls. -/
def c4post : State := Warn c4run.1 "w2" [] (Warn c4run.1 "w1" [] c4run.2)

/-- A traced call that panics with value `"boom"` into its deferred `End`. -/
def c6run : Ctx × State := Start background "f" [] demoSt

/-- The outcome of that `End`. -/
def c6res : EndResult := End c6run.1 (some "boom") c6run.2

/-- Ceiling scenario configuration: `MaxSpan = 5`, tracing on. -/
def c2conf : Config :=
  { EnableTrace := true, Output := "none", TracerProviderType := "file", MaxSpan := 5 }

/-- State after `Init c2conf`. -/
def c2st : State := (Init c2conf initState).getD initState

/-- The root span everything below is a child of. -/
def c2root : Ctx × State := Start background "root" [] c2st

/-- `c2child n` is the (n+1)-th sequential child started under the root. -/
def c2child : Nat → Ctx × State
  | 0 => Start c2root.1 "c" [] c2root.2
  | n + 1 => Start c2root.1 "c" [] (c2child n).2

/-- Count bookkeeping scenario: a root span … -/
def c3root : Ctx × State := Start background "root" [] demoSt

/-- … one child started under the root … -/
def c3c1 : Ctx × State := Start c3root.1 "c1" [] c3root.2

/-- … the child ended (the only `Start` under the root's identity is now
matched by its `End`) … -/
def c3afterChildEnd : State := (End c3c1.1 none c3c1.2).st

/-- … and finally the root itself ended. -/
def c3afterRootEnd : State := (End c3root.1 none c3afterChildEnd).st

/-- A well-formed 32-hex trace id. -/
def c5traceID : String := "0af7651916cd43dd8448eb211c80319c"

/-- A well-formed 16-hex span id. -/
def c5spanID : String := "b7ad6b7169203331"

/-- The root context built from those ids. -/
def c5root : Ctx × Option String := NewRootContext c5traceID c5spanID

/-- A child span started under that root context. -/
def c5child : Ctx × State := Start c5root.1 "child" [] demoSt

/-- The 15-character alphabet `randString` actually draws from:
`seed[0 .. 14]` — `Intn(15)` never selects the final `'f'` of the seed. -/
def noF : List Char := "0123456789abcde".data

/-- A hex digit in the loose sense of the spec's "hex characters": digits
plus `a`-`f` in either case. -/
def isHexDigitBroad (c : Char) : Bool :=
  ('0' ≤ c && c ≤ '9') || ('a' ≤ c && c ≤ 'f') || ('A' ≤ c && c ≤ 'F')

/-- A 32-character trace id made of hex characters that otel nevertheless
rejects (uppercase digit). -/
def upperHexTraceID : String := "0000000000000000000000000000000A"

/-- The common scalar payloads of the two sinks, used to state that a field
projects to *the same underlying value* in both. -/
inductive ScalarVal
  | boolS (x : Bool)
  | intS (x : Int)
  | floatS (x : F64)
  | stringS (x : String)
deriving DecidableEq

/-- The scalar payload of a tracing attribute value, when it is one. -/
def AttrValue.scalar : AttrValue → Option ScalarVal
  | .boolV x => some (.boolS x)
  | .int64V x => some (.intS x)
  | .float64V x => some (.floatS x)
  | .stringV x => some (.stringS x)
  | _ => none

/-- The scalar payload of a zap field value, when it is one. -/
def ZapValue.scalar : ZapValue → Option ScalarVal
  | .boolV x => some (.boolS x)
  | .int64V x => some (.intS x)
  | .float64V x => some (.floatS x)
  | .stringV x => some (.stringS x)
  | _ => none


/-! ## Supporting lemmas -/

/-- Every entry of the seed alphabet is a lowercase hex digit. -/
theorem seedChars_getD_hex : ∀ k, k < 16 → isLowerHexDigit (seedChars.getD k '0') = true := by
  decide

/-- The first 15 entries of the seed alphabet lie in the `'f'`-free list. -/
theorem seedChars_getD_noF : ∀ k, k < 15 → noF.contains (seedChars.getD k '0') = true := by
  decide

/-- The first 15 entries of the seed alphabet are not `'f'`. -/
theorem seedChars_getD_ne_f : ∀ k, k < 15 → (seedChars.getD k '0' != 'f') = true := by
  decide

/-- The characters of `randString`, as a list. -/
theorem randString_data (n : Nat) (r : Nat → Nat) :
    (randString n r).data = (List.range n).map (fun i => seedChars.getD (r i % 15) '0') := rfl

/-- `randString` always returns exactly `n` characters. -/
theorem randString_length (n : Nat) (r : Nat → Nat) : (randString n r).length = n := by
  simp [randString, String.length_mk]

/-- Each `randString` character satisfies any predicate that holds on the
first 15 seed entries. -/
theorem randString_all (n : Nat) (r : Nat → Nat) (p : Char → Bool)
    (hp : ∀ k, k < 15 → p (seedChars.getD k '0') = true) :
    ((randString n r).data.all p) = true := by
  rw [randString_data]
  apply List.all_eq_true.mpr
  intro c hc
  rw [List.mem_map] at hc
  obtain ⟨i, _, rfl⟩ := hc
  exact hp _ (Nat.mod_lt _ (by omega))

/-- Digits accumulate: the output of the digit loop is at least as long as
its accumulator. -/
theorem natToHexCore_length_ge : ∀ (fuel n : Nat) (ds : List Char),
    ds.length ≤ (natToHexCore fuel n ds).length := by
  intro fuel
  induction fuel with
  | zero => intro n ds; simp [natToHexCore]
  | succ fuel ih =>
    intro n ds
    simp only [natToHexCore]
    split
    · simp
    · have := ih (n / 16) (seedChars.getD (n % 16) '0' :: ds)
      simp only [List.length_cons] at this
      omega

/-- The digit loop on `n < 16 ^ k` (with `k ≥ 1`) adds at most `k` digits. -/
theorem natToHexCore_length_le : ∀ (fuel k n : Nat) (ds : List Char), 1 ≤ k → n < 16 ^ k →
    (natToHexCore fuel n ds).length ≤ k + ds.length := by
  intro fuel
  induction fuel with
  | zero => intro k n ds hk _; simp only [natToHexCore]; omega
  | succ fuel ih =>
    intro k n ds hk hn
    simp only [natToHexCore]
    split
    next hlt =>
      simp only [List.length_cons]
      omega
    next hlt =>
      have hk2 : 2 ≤ k := by
        rcases Nat.lt_or_ge k 2 with hlt2 | hge
        · have hk1 : k = 1 := by omega
          rw [hk1, pow_one] at hn
          omega
        · exact hge
      have hd : n / 16 < 16 ^ (k - 1) := by
        apply Nat.div_lt_of_lt_mul
        have hpow : 16 ^ (k - 1) * 16 = 16 ^ k := by
          rw [← pow_succ]
          congr 1
          omega
        omega
      have := ih (k - 1) (n / 16) (seedChars.getD (n % 16) '0' :: ds) (by omega) hd
      simp only [List.length_cons] at this
      omega

/-- Every digit the loop emits (and keeps from its accumulator) is a
lowercase hex digit. -/
theorem natToHexCore_all_hex : ∀ (fuel n : Nat) (ds : List Char),
    (ds.all isLowerHexDigit) = true → ((natToHexCore fuel n ds).all isLowerHexDigit) = true := by
  intro fuel
  induction fuel with
  | zero => intro n ds h; simpa [natToHexCore] using h
  | succ fuel ih =>
    intro n ds h
    simp only [natToHexCore]
    split
    next hlt =>
      simp only [List.all_cons, Bool.and_eq_true]
      exact ⟨seedChars_getD_hex _ (Nat.mod_lt _ (by omega)), h⟩
    next hlt =>
      apply ih
      simp only [List.all_cons, Bool.and_eq_true]
      exact ⟨seedChars_getD_hex _ (Nat.mod_lt _ (by omega)), h⟩

/-- All characters of a hex rendering are lowercase hex digits. -/
theorem natToHexAux_hex (n : Nat) : ((natToHexAux n).all isLowerHexDigit) = true :=
  natToHexCore_all_hex (n + 1) n [] rfl

/-- The hex rendering of `n < 16 ^ k` has at most `k` digits (for `k ≥ 1`). -/
theorem natToHexAux_length_le (k n : Nat) (hk : 1 ≤ k) (hn : n < 16 ^ k) :
    (natToHexAux n).length ≤ k := by
  have := natToHexCore_length_le (n + 1) k n [] hk hn
  simpa [natToHexAux] using this

/-- `String.length` is the length of the character list. -/
theorem string_length_eq_data_length (s : String) : s.length = s.data.length := by
  cases s
  rfl

/-- The characters of the padded timestamp block of `GenTraceID`. -/
theorem stimePadded_data (now : Nat) :
    (padRight16 (natToHex now)).data
      = natToHexAux now ++ List.replicate (16 - (natToHexAux now).length) '0' := by
  simp [padRight16, natToHex, String.data_append, String.length_mk]

/-- Under the int64 range of `UnixNano`, the padded timestamp block is
exactly 16 characters. -/
theorem stimePadded_length (now : Nat) (hnow : now < 2 ^ 63) :
    (padRight16 (natToHex now)).data.length = 16 := by
  have h1 : (natToHexAux now).length ≤ 16 := by
    apply natToHexAux_length_le 16 now (by norm_num)
    calc now < 2 ^ 63 := hnow
      _ ≤ 16 ^ 16 := by norm_num
  rw [stimePadded_data]
  simp only [List.length_append, List.length_replicate]
  omega

/-- The padded timestamp block is all lowercase hex. -/
theorem stimePadded_all_hex (now : Nat) :
    ((padRight16 (natToHex now)).data.all isLowerHexDigit) = true := by
  rw [stimePadded_data, List.all_append]
  have h2 : ((List.replicate (16 - (natToHexAux now).length) '0').all isLowerHexDigit) = true := by
    apply List.all_eq_true.mpr
    intro c hc
    rw [List.eq_of_mem_replicate hc]
    decide
  simp [natToHexAux_hex, h2]

/-- `GenTraceID` is the padded timestamp block followed by the random block. -/
theorem genTraceID_data (now : Nat) (r : Nat → Nat) :
    (GenTraceID now r).data = (padRight16 (natToHex now)).data ++ (randString 16 r).data := by
  simp [GenTraceID, padRight16, natToHex, String.data_append, String.length_mk]

/-! ## The claims -/

/-- **C7** (confirmed).  Every `Field` built by a scalar constructor
(`Bool`, `Int`, `Int64`, `Float64`, `String`) projects through the
tracing-attribute projector `FieldsToKeyValues` and through the log-field
projector `FieldsToZapFields` (on a context without a span, so no
correlation prefix) to a single entry with the same key and the same
underlying scalar value in both sinks; in particular `Int "age" 30` yields
an integer-valued entry named `"age"` with value 30 in both. -/
theorem scalar_fields_project_equally :
    (∀ (k : String) (v : Bool),
      (FieldsToKeyValues [Field.Bool k v]).map (fun kv => (kv.Key, kv.Value.scalar))
        = [(k, some (.boolS v))] ∧
      (FieldsToZapFields background [Field.Bool k v]).map (fun zf => (zf.Key, zf.Value.scalar))
        = [(k, some (.boolS v))]) ∧
    (∀ (k : String) (v : Int),
      (FieldsToKeyValues [Field.Int k v]).map (fun kv => (kv.Key, kv.Value.scalar))
        = [(k, some (.intS v))] ∧
      (FieldsToZapFields background [Field.Int k v]).map (fun zf => (zf.Key, zf.Value.scalar))
        = [(k, some (.intS v))]) ∧
    (∀ (k : String) (v : Int),
      (FieldsToKeyValues [Field.Int64 k v]).map (fun kv => (kv.Key, kv.Value.scalar))
        = [(k, some (.intS v))] ∧
      (FieldsToZapFields background [Field.Int64 k v]).map (fun zf => (zf.Key, zf.Value.scalar))
        = [(k, some (.intS v))]) ∧
    (∀ (k : String) (v : F64),
      (FieldsToKeyValues [Field.Float64 k v]).map (fun kv => (kv.Key, kv.Value.scalar))
        = [(k, some (.floatS v))] ∧
      (FieldsToZapFields background [Field.Float64 k v]).map (fun zf => (zf.Key, zf.Value.scalar))
        = [(k, some (.floatS v))]) ∧
    (∀ (k : String) (v : String),
      (FieldsToKeyValues [Field.String k v]).map (fun kv => (kv.Key, kv.Value.scalar))
        = [(k, some (.stringS v))] ∧
      (FieldsToZapFields background [Field.String k v]).map (fun zf => (zf.Key, zf.Value.scalar))
        = [(k, some (.stringS v))]) := by
  refine ⟨fun k v => ⟨rfl, rfl⟩, fun k v => ⟨rfl, rfl⟩, fun k v => ⟨rfl, rfl⟩,
    fun k v => ⟨rfl, rfl⟩, fun k v => ⟨rfl, rfl⟩⟩

/-- **C8** (confirmed).  For every `"any"`-tagged field: the
tracing-attribute projection emits the JSON rendering as a string attribute
and silently omits the field when Marshal fails (total in either case),
while the log-field projection always forwards the raw value unencoded. -/
theorem any_field_projection : ∀ (k : String) (v : AnyVal),
    FieldsToKeyValues [Field.Any k v]
      = (match v.marshal with
         | some str => [⟨k, AttrValue.stringV str⟩]
         | none => []) ∧
    FieldsToZapFields background [Field.Any k v] = [⟨k, ZapValue.anyV v⟩] := by
  intro k v
  obtain ⟨m⟩ := v
  cases m <;> exact ⟨rfl, rfl⟩

/-- **C9** (confirmed).  For every `UnixNano` timestamp in the int64 range
and every random stream, `GenTraceID` returns 32 hex characters whose first
16 are the timestamp rendered in hex and zero-padded (on the right) to
length 16, followed by 16 random hex characters; `GenSpanID` returns 16 hex
characters. -/
theorem genTraceID_genSpanID_shape (now : Nat) (r : Nat → Nat) (hnow : now < 2 ^ 63) :
    (GenTraceID now r).length = 32 ∧
    ((GenTraceID now r).data.all isLowerHexDigit) = true ∧
    (GenTraceID now r).data.take 16 = (padRight16 (natToHex now)).data ∧
    (GenSpanID r).length = 16 ∧
    ((GenSpanID r).data.all isLowerHexDigit) = true := by
  have hpadlen := stimePadded_length now hnow
  have hdata := genTraceID_data now r
  have hrandlen : (randString 16 r).data.length = 16 := by
    rw [randString_data]
    simp
  have hrandhex : ((randString 16 r).data.all isLowerHexDigit) = true :=
    randString_all 16 r isLowerHexDigit (fun k hk => seedChars_getD_hex k (by omega))
  refine ⟨?_, ?_, ?_, ?_, ?_⟩
  · rw [string_length_eq_data_length, hdata]
    simp only [List.length_append, hpadlen, hrandlen]
  · rw [hdata, List.all_append]
    simp [stimePadded_all_hex now, hrandhex]
  · rw [hdata, ← hpadlen]
    exact List.take_left _ _
  · exact randString_length 16 r
  · exact randString_all 16 r isLowerHexDigit (fun k hk => seedChars_getD_hex k (by omega))

/-- Witness for C9 at a concrete recent timestamp and the constant-zero
random stream. -/
theorem genTraceID_genSpanID_shape_witness :
    (GenTraceID 1760000000000000000 (fun _ => 0)).length = 32 ∧
    (GenTraceID 1760000000000000000 (fun _ => 0)).data.take 16
      = (padRight16 (natToHex 1760000000000000000)).data := by
  have h := genTraceID_genSpanID_shape 1760000000000000000 (fun _ => 0) (by norm_num)
  exact ⟨h.1, h.2.2.1⟩

/-- **C10** (confirmed).  Every character `randString` produces — hence
every character of `GenSpanID` and of the 16-character random suffix of
`GenTraceID` — comes from the 15-character alphabet `"0123456789abcde"`:
the seed is indexed with `Intn(15)`, so its final `'f'` is never drawn. -/
theorem randString_avoids_f :
    (∀ (n : Nat) (r : Nat → Nat), ((randString n r).data.all (fun c => noF.contains c)) = true) ∧
    (∀ (n : Nat) (r : Nat → Nat), ((randString n r).data.all (fun c => c != 'f')) = true) ∧
    (∀ (r : Nat → Nat), ((GenSpanID r).data.all (fun c => noF.contains c)) = true) ∧
    (∀ (now : Nat) (r : Nat → Nat), now < 2 ^ 63 →
      (((GenTraceID now r).data.drop 16).all (fun c => noF.contains c)) = true) := by
  refine ⟨?_, ?_, ?_, ?_⟩
  · intro n r
    exact randString_all n r _ seedChars_getD_noF
  · intro n r
    exact randString_all n r _ seedChars_getD_ne_f
  · intro r
    exact randString_all 16 r _ seedChars_getD_noF
  · intro now r hnow
    have hdata := genTraceID_data now r
    have hpadlen := stimePadded_length now hnow
    rw [hdata, ← hpadlen, List.drop_left, hpadlen]
    exact randString_all 16 r _ seedChars_getD_noF

/-- Witness for C10 on the trace-id suffix at a concrete timestamp and the
identity random stream. -/
theorem randString_avoids_f_witness :
    (((GenTraceID 1760000000000000000 (fun i => i)).data.drop 16).all
      (fun c => noF.contains c)) = true :=
  randString_avoids_f.2.2.2 1760000000000000000 (fun i => i) (by norm_num)


/-! ### Lemmas about `End`, `Start` and `NewRootContext` -/

/-- `updateSpan` never touches the log sink. -/
theorem updateSpan_logs (st : State) (ref : Nat) (f : SpanRec → SpanRec) :
    (updateSpan st ref f).logs = st.logs := by
  unfold updateSpan
  split <;> rfl

/-- `spanEnd` never touches the log sink. -/
theorem spanEnd_logs (st : State) (h : SpanHandle) : (spanEnd st h).logs = st.logs := by
  cases h with
  | recording sc ref => exact updateSpan_logs st ref _
  | nonRecording sc => rfl
  | noop => rfl

/-- The span/table part of `End` never touches the log sink. -/
theorem endSpanPart_logs (ctx : Ctx) (st : State) : (endSpanPart ctx st).logs = st.logs := by
  unfold endSpanPart
  cases hl : ctx.lsc with
  | none => rfl
  | some lsc =>
    by_cases he : st.config.EnableTrace = true <;> simp [he, spanEnd_logs]

/-- Error-severity records always pass the zap core's level gate. -/
theorem zapWrite_error (st : State) (msg : String) (fs : List ZapField) :
    zapWrite st "error" msg fs = { st with logs := st.logs ++ [⟨"error", msg, fs⟩] } := by
  have h2 : zapLevelNum "error" = 2 := rfl
  unfold zapWrite
  rw [h2]
  have hle : zapMinLevel st.config ≤ 2 := by
    unfold zapMinLevel
    split <;> norm_num
  rw [if_pos hle]

/-- Setting an element and reading it back. -/
theorem get?_set_self {α : Type} (l : List α) (i : Nat) (a : α) (h : i < l.length) :
    (l.set i a).get? i = some a := by
  simp [List.get?_eq_getElem?, List.getElem?_set_self', h]

/-- The noop tracer never returns a recording span. -/
theorem isRealSpan_noopTracerStart (ctx : Ctx) : isRealSpan (noopTracerStart ctx) = false := by
  unfold noopTracerStart
  cases hos : ctx.otelSpan with
  | none => rfl
  | some h => cases h <;> rfl


/-- `zapWrite` never touches the span table. -/
theorem zapWrite_spans (st : State) (level msg : String) (fs : List ZapField) :
    (zapWrite st level msg fs).spans = st.spans := by
  unfold zapWrite
  split <;> rfl

/-- `updateSpan` never touches the span-count table. -/
theorem updateSpan_spanCount (st : State) (ref : Nat) (f : SpanRec → SpanRec) :
    (updateSpan st ref f).spanCount = st.spanCount := by
  unfold updateSpan
  split <;> rfl

/-- `spanEnd` never touches the span-count table. -/
theorem spanEnd_spanCount (st : State) (h : SpanHandle) :
    (spanEnd st h).spanCount = st.spanCount := by
  cases h with
  | recording sc ref => exact updateSpan_spanCount st ref _
  | nonRecording sc => rfl
  | noop => rfl

/-- Writing back the element that is already there changes nothing. -/
theorem set_self_of_get? {α : Type} (l : List α) (i : Nat) (a : α) (h : l.get? i = some a) :
    l.set i a = l := by
  induction l generalizing i with
  | nil => rfl
  | cons x xs ih =>
    cases i with
    | zero =>
      simp only [List.get?] at h
      injection h with h
      subst h
      rfl
    | succ i =>
      simp only [List.get?] at h
      simp only [List.set]
      rw [ih i h]

/-- `AddEvent` on a span that no longer records is a complete no-op. -/
theorem spanAddEvent_of_ended (st : State) (h : SpanHandle)
    (hend : endedIn st.spans h = true) (n : String) (a : List KeyValue) :
    spanAddEvent st h n a = st := by
  cases h with
  | nonRecording sc => rfl
  | noop => rfl
  | recording sc ref =>
    have hA : spanAddEvent st (SpanHandle.recording sc ref) n a
        = updateSpan st ref (fun sp =>
            if sp.ended then sp else { sp with events := sp.events ++ [⟨n, a⟩] }) := by
      rw [spanAddEvent.eq_def]
    rw [hA]
    cases hg : st.spans.get? ref with
    | none => rw [updateSpan.eq_def, hg]
    | some sp =>
      have hsp : sp.ended = true := by
        have h2 : ((st.spans.get? ref).map (fun sp => sp.ended)).getD true = true := hend
        rw [hg] at h2
        simpa using h2
      rw [updateSpan.eq_def, hg]
      show { st with spans := st.spans.set ref (if sp.ended = true then sp
        else { sp with events := sp.events ++ [⟨n, a⟩] }) } = st
      rw [if_pos hsp, set_self_of_get? st.spans ref sp hg]

/-- `SetAttributes` on a span that no longer records is a complete no-op. -/
theorem spanSetAttributes_of_ended (st : State) (h : SpanHandle)
    (hend : endedIn st.spans h = true) (a : List KeyValue) :
    spanSetAttributes st h a = st := by
  cases h with
  | nonRecording sc => rfl
  | noop => rfl
  | recording sc ref =>
    have hA : spanSetAttributes st (SpanHandle.recording sc ref) a
        = updateSpan st ref (fun sp =>
            if sp.ended then sp else { sp with attrs := sp.attrs ++ a }) := by
      rw [spanSetAttributes.eq_def]
    rw [hA]
    cases hg : st.spans.get? ref with
    | none => rw [updateSpan.eq_def, hg]
    | some sp =>
      have hsp : sp.ended = true := by
        have h2 : ((st.spans.get? ref).map (fun sp => sp.ended)).getD true = true := hend
        rw [hg] at h2
        simpa using h2
      rw [updateSpan.eq_def, hg]
      show { st with spans := st.spans.set ref (if sp.ended = true then sp
        else { sp with attrs := sp.attrs ++ a }) } = st
      rw [if_pos hsp, set_self_of_get? st.spans ref sp hg]

/-- `RecordError` on a span that no longer records is a complete no-op. -/
theorem spanRecordError_of_ended (st : State) (h : SpanHandle)
    (hend : endedIn st.spans h = true) (m : String) (a : List KeyValue) :
    spanRecordError st h m a = st := by
  cases h with
  | nonRecording sc => rfl
  | noop => rfl
  | recording sc ref =>
    have hA : spanRecordError st (SpanHandle.recording sc ref) m a
        = updateSpan st ref (fun sp =>
            if sp.ended then sp else { sp with errs := sp.errs ++ [⟨m, a⟩] }) := by
      rw [spanRecordError.eq_def]
    rw [hA]
    cases hg : st.spans.get? ref with
    | none => rw [updateSpan.eq_def, hg]
    | some sp =>
      have hsp : sp.ended = true := by
        have h2 : ((st.spans.get? ref).map (fun sp => sp.ended)).getD true = true := hend
        rw [hg] at h2
        simpa using h2
      rw [updateSpan.eq_def, hg]
      show { st with spans := st.spans.set ref (if sp.ended = true then sp
        else { sp with errs := sp.errs ++ [⟨m, a⟩] }) } = st
      rw [if_pos hsp, set_self_of_get? st.spans ref sp hg]

/-- Every context `Start` returns carries `startSpan = true` (and, contexts
being immutable values, carries it forever — no later call can change it). -/
theorem start_flag_true (ctx : Ctx) (name : String) (fs : List Field) (st : State) :
    carriedStartSpan (Start ctx name fs st).1 = some true := by
  simp only [Start]
  split <;> split <;> rfl

/-- `End` with no pending panic, spelled out. -/
theorem end_none_pending_st (ctx : Ctx) (st : State) :
    End ctx none st = { st := endSpanPart ctx st, panicked := none } := by
  rw [End.eq_def]

/-- `endSpanPart` on a context without a span context. -/
theorem endSpanPart_none (ctx : Ctx) (st : State) (hl : ctx.lsc = none) :
    endSpanPart ctx st = st := by
  rw [endSpanPart.eq_def, hl]

/-- `endSpanPart` on a context with a span context, spelled out. -/
theorem endSpanPart_some (ctx : Ctx) (st : State) (lsc : LoggerSpanContext)
    (hl : ctx.lsc = some lsc) :
    endSpanPart ctx st
      = { (if st.config.EnableTrace = true then spanEnd st lsc.span else st) with
          spanCount :=
            scDelete (if st.config.EnableTrace = true then spanEnd st lsc.span
              else st).spanCount (TraceID ctx) (SpanID ctx) } := by
  rw [endSpanPart.eq_def, hl]

/-- After `End` (tracing enabled), the ended context's own span no longer
records. -/
theorem end_marks_ended (ctx : Ctx) (st : State) (lsc : LoggerSpanContext)
    (hl : ctx.lsc = some lsc) (ht : st.config.EnableTrace = true) :
    endedIn (End ctx none st).st.spans lsc.span = true := by
  rw [end_none_pending_st, endSpanPart_some ctx st lsc hl, if_pos ht]
  show endedIn (spanEnd st lsc.span).spans lsc.span = true
  cases hspan : lsc.span with
  | nonRecording sc => rfl
  | noop => rfl
  | recording sc ref =>
    cases hg : st.spans.get? ref with
    | none =>
      have h0a : spanEnd st (SpanHandle.recording sc ref)
          = updateSpan st ref (fun sp => { sp with ended := true }) := by
        rw [spanEnd.eq_def]
      have h0b : updateSpan st ref (fun sp => { sp with ended := true }) = st := by
        rw [updateSpan.eq_def, hg]
      rw [h0a, h0b]
      show ((st.spans.get? ref).map (fun sp => sp.ended)).getD true = true
      rw [hg]
      rfl
    | some sp =>
      obtain ⟨hlt, _⟩ := List.get?_eq_some.mp hg
      have h2a : spanEnd st (SpanHandle.recording sc ref)
          = updateSpan st ref (fun sp => { sp with ended := true }) := by
        rw [spanEnd.eq_def]
      have h2b : updateSpan st ref (fun sp => { sp with ended := true })
          = { st with spans := st.spans.set ref ({ sp with ended := true }) } := by
        rw [updateSpan.eq_def, hg]
      rw [h2a, h2b]
      show (((st.spans.set ref ({ sp with ended := true })).get? ref).map
        (fun sp => sp.ended)).getD true = true
      rw [get?_set_self _ _ _ hlt]
      rfl

/-- On a context whose span no longer records, `Debug` is its structured-log
write alone. -/
theorem Debug_of_ended (ctx : Ctx) (st : State) (lsc : LoggerSpanContext) (m : String)
    (attrs : List Field) (hl : ctx.lsc = some lsc) (hend : endedIn st.spans lsc.span = true) :
    Debug ctx m attrs st
      = (if st.enable_log = true then zapWrite st "debug" m (FieldsToZapFields ctx attrs)
         else st) := by
  have hD : Debug ctx m attrs st
      = (if (!lsc.startSpan) = true
         then (if st.enable_log = true then zapWrite st "debug" m (FieldsToZapFields ctx attrs)
           else st)
         else if (if st.enable_log = true
               then zapWrite st "debug" m (FieldsToZapFields ctx attrs) else st).config.EnableTrace
             = true
           then spanAddEvent (if st.enable_log = true
               then zapWrite st "debug" m (FieldsToZapFields ctx attrs) else st)
             lsc.span m (FieldsToKeyValues attrs)
           else (if st.enable_log = true
             then zapWrite st "debug" m (FieldsToZapFields ctx attrs) else st)) := by
    rw [Debug.eq_def, hl]
  rw [hD]
  set st1 := if st.enable_log = true then zapWrite st "debug" m (FieldsToZapFields ctx attrs)
    else st with hst1
  have hspans : st1.spans = st.spans := by
    rw [hst1]
    by_cases hel : st.enable_log = true
    · rw [if_pos hel, zapWrite_spans]
    · rw [if_neg hel]
  have hend1 : endedIn st1.spans lsc.span = true := by
    rw [hspans]
    exact hend
  by_cases hss : (!lsc.startSpan) = true
  · rw [if_pos hss]
  · rw [if_neg hss]
    by_cases ht : st1.config.EnableTrace = true
    · rw [if_pos ht, spanAddEvent_of_ended st1 lsc.span hend1]
    · rw [if_neg ht]

/-- On a context whose span no longer records, `Info` is its structured-log
write alone. -/
theorem Info_of_ended (ctx : Ctx) (st : State) (lsc : LoggerSpanContext) (m : String)
    (attrs : List Field) (hl : ctx.lsc = some lsc) (hend : endedIn st.spans lsc.span = true) :
    Info ctx m attrs st
      = (if st.enable_log = true then zapWrite st "info" m (FieldsToZapFields ctx attrs)
         else st) := by
  have hI : Info ctx m attrs st
      = (if (!lsc.startSpan) = true
         then (if st.enable_log = true then zapWrite st "info" m (FieldsToZapFields ctx attrs)
           else st)
         else if (if st.enable_log = true
               then zapWrite st "info" m (FieldsToZapFields ctx attrs) else st).config.EnableTrace
             = true
           then spanAddEvent (if st.enable_log = true
               then zapWrite st "info" m (FieldsToZapFields ctx attrs) else st)
             lsc.span m (FieldsToKeyValues attrs)
           else (if st.enable_log = true
             then zapWrite st "info" m (FieldsToZapFields ctx attrs) else st)) := by
    rw [Info.eq_def, hl]
  rw [hI]
  set st1 := if st.enable_log = true then zapWrite st "info" m (FieldsToZapFields ctx attrs)
    else st with hst1
  have hspans : st1.spans = st.spans := by
    rw [hst1]
    by_cases hel : st.enable_log = true
    · rw [if_pos hel, zapWrite_spans]
    · rw [if_neg hel]
  have hend1 : endedIn st1.spans lsc.span = true := by
    rw [hspans]
    exact hend
  by_cases hss : (!lsc.startSpan) = true
  · rw [if_pos hss]
  · rw [if_neg hss]
    by_cases ht : st1.config.EnableTrace = true
    · rw [if_pos ht, spanAddEvent_of_ended st1 lsc.span hend1]
    · rw [if_neg ht]

/-- On a context whose span no longer records, `Warn` is its structured-log
write alone (both the `"warns"` attribute and the event are dropped). -/
theorem Warn_of_ended (ctx : Ctx) (st : State) (lsc : LoggerSpanContext) (m : String)
    (attrs : List Field) (hl : ctx.lsc = some lsc) (hend : endedIn st.spans lsc.span = true) :
    Warn ctx m attrs st
      = (if st.enable_log = true then zapWrite st "warn" m (FieldsToZapFields ctx attrs)
         else st) := by
  have hW : Warn ctx m attrs st
      = (if (!lsc.startSpan) = true
         then (if st.enable_log = true then zapWrite st "warn" m (FieldsToZapFields ctx attrs)
           else st)
         else if (if st.enable_log = true
               then zapWrite st "warn" m (FieldsToZapFields ctx attrs) else st).config.EnableTrace
             = true
           then spanAddEvent
             (spanSetAttributes (if st.enable_log = true
                 then zapWrite st "warn" m (FieldsToZapFields ctx attrs) else st)
               lsc.span [⟨"warns", AttrValue.int64V (lsc.warnCount + 1)⟩])
             lsc.span m (FieldsToKeyValues attrs)
           else (if st.enable_log = true
             then zapWrite st "warn" m (FieldsToZapFields ctx attrs) else st)) := by
    rw [Warn.eq_def, hl]
  rw [hW]
  set st1 := if st.enable_log = true then zapWrite st "warn" m (FieldsToZapFields ctx attrs)
    else st with hst1
  have hspans : st1.spans = st.spans := by
    rw [hst1]
    by_cases hel : st.enable_log = true
    · rw [if_pos hel, zapWrite_spans]
    · rw [if_neg hel]
  have hend1 : endedIn st1.spans lsc.span = true := by
    rw [hspans]
    exact hend
  by_cases hss : (!lsc.startSpan) = true
  · rw [if_pos hss]
  · rw [if_neg hss]
    by_cases ht : st1.config.EnableTrace = true
    · rw [if_pos ht, spanSetAttributes_of_ended st1 lsc.span hend1,
        spanAddEvent_of_ended st1 lsc.span hend1]
    · rw [if_neg ht]

/-- On a context whose span no longer records, `Error` is its structured-log
write alone (both the `"errors"` attribute and the error record are
dropped). -/
theorem Error_of_ended (ctx : Ctx) (st : State) (lsc : LoggerSpanContext) (m : String)
    (attrs : List Field) (hl : ctx.lsc = some lsc) (hend : endedIn st.spans lsc.span = true) :
    Error ctx m attrs st
      = (if st.enable_log = true then zapWrite st "error" m (FieldsToZapFields ctx attrs)
         else st) := by
  have hE : Error ctx m attrs st
      = (if (!lsc.startSpan) = true
         then (if st.enable_log = true then zapWrite st "error" m (FieldsToZapFields ctx attrs)
           else st)
         else if (if st.enable_log = true
               then zapWrite st "error" m (FieldsToZapFields ctx attrs) else st).config.EnableTrace
             = true
           then spanRecordError
             (spanSetAttributes (if st.enable_log = true
                 then zapWrite st "error" m (FieldsToZapFields ctx attrs) else st)
               lsc.span [⟨"errors", AttrValue.int64V (lsc.errorCount + 1)⟩])
             lsc.span m (FieldsToKeyValues attrs)
           else (if st.enable_log = true
             then zapWrite st "error" m (FieldsToZapFields ctx attrs) else st)) := by
    rw [Error.eq_def, hl]
  rw [hE]
  set st1 := if st.enable_log = true then zapWrite st "error" m (FieldsToZapFields ctx attrs)
    else st with hst1
  have hspans : st1.spans = st.spans := by
    rw [hst1]
    by_cases hel : st.enable_log = true
    · rw [if_pos hel, zapWrite_spans]
    · rw [if_neg hel]
  have hend1 : endedIn st1.spans lsc.span = true := by
    rw [hspans]
    exact hend
  by_cases hss : (!lsc.startSpan) = true
  · rw [if_pos hss]
  · rw [if_neg hss]
    by_cases ht : st1.config.EnableTrace = true
    · rw [if_pos ht, spanSetAttributes_of_ended st1 lsc.span hend1,
        spanRecordError_of_ended st1 lsc.span hend1]
    · rw [if_neg ht]

/-- On a context whose span no longer records, `Fatal` is its structured-log
write alone: with logging enabled it writes and exits (the deferred span
recording never runs); without logging its deferred recording hits the ended
span and is dropped. -/
theorem Fatal_of_ended (ctx : Ctx) (st : State) (lsc : LoggerSpanContext) (m : String)
    (attrs : List Field) (hl : ctx.lsc = some lsc) (hend : endedIn st.spans lsc.span = true) :
    Fatal ctx m attrs st
      = (if st.enable_log = true
         then { st := zapWrite st "fatal" m (FieldsToZapFields ctx attrs), exited := true }
         else { st := st, exited := false }) := by
  have hF : Fatal ctx m attrs st
      = (if st.enable_log = true
         then { st := zapWrite st "fatal" m (FieldsToZapFields ctx attrs), exited := true }
         else if (!lsc.startSpan) = true then { st := st, exited := false }
           else if st.config.EnableTrace = true
             then { st := spanRecordError st lsc.span m (FieldsToKeyValues attrs),
                    exited := false }
             else { st := st, exited := false }) := by
    rw [Fatal.eq_def, hl]
  rw [hF]
  by_cases hel : st.enable_log = true
  · rw [if_pos hel, if_pos hel]
  · rw [if_neg hel, if_neg hel]
    by_cases hss : (!lsc.startSpan) = true
    · rw [if_pos hss]
    · rw [if_neg hss]
      by_cases ht : st.config.EnableTrace = true
      · rw [if_pos ht, spanRecordError_of_ended st lsc.span hend]
      · rw [if_neg ht]

/-- `find?` commutes with a `filter` that keeps everything the `find?`
predicate accepts. -/
theorem find?_filter_of_imp {α : Type} (l : List α) (p q : α → Bool)
    (h : ∀ x, p x = true → q x = true) : (l.filter q).find? p = l.find? p := by
  induction l with
  | nil => rfl
  | cons a l ih =>
    by_cases hq : q a = true
    · rw [List.filter_cons_of_pos hq]
      by_cases hp : p a = true
      · rw [List.find?_cons_of_pos _ hp, List.find?_cons_of_pos _ hp]
      · rw [List.find?_cons_of_neg _ hp, List.find?_cons_of_neg _ hp]
        exact ih
    · have hp : ¬ p a = true := fun hpa => hq (h a hpa)
      rw [List.filter_cons_of_neg hq, List.find?_cons_of_neg _ hp]
      exact ih

/-- Deleting one key leaves every other key's entry untouched. -/
theorem tblLoad_tblDelete_ne (t : List (String × Int)) (k other : String)
    (hne : other ≠ k) : tblLoad (tblDelete t k) other = tblLoad t other := by
  unfold tblLoad tblDelete
  rw [find?_filter_of_imp]
  intro x hx
  have hx' : x.1 = other := by simpa using hx
  rw [bne_iff_ne, hx']
  exact hne

/-- The md5 key derivation is injective (abstraction: collisions absent). -/
theorem md5_inj {a b : String} (h : md5 a = md5 b) : a = b := by
  unfold md5 at h
  have hd : ("md5#" ++ a).data = ("md5#" ++ b).data := by rw [h]
  rw [String.data_append, String.data_append] at hd
  have h2 := List.append_cancel_left hd
  cases a
  cases b
  exact congrArg String.mk h2

/-- `End` on a span-carrying context deletes exactly the entry keyed by that
context's own identity. -/
theorem end_spanCount_delete (ctx : Ctx) (st : State) (lsc : LoggerSpanContext)
    (hl : ctx.lsc = some lsc) :
    (End ctx none st).st.spanCount = scDelete st.spanCount (TraceID ctx) (SpanID ctx) := by
  rw [end_none_pending_st, endSpanPart_some ctx st lsc hl]
  show scDelete (if st.config.EnableTrace = true then spanEnd st lsc.span else st).spanCount
      (TraceID ctx) (SpanID ctx) = scDelete st.spanCount (TraceID ctx) (SpanID ctx)
  have hsc : (if st.config.EnableTrace = true then spanEnd st lsc.span else st).spanCount
      = st.spanCount := by
    by_cases ht : st.config.EnableTrace = true
    · rw [if_pos ht, spanEnd_spanCount]
    · rw [if_neg ht]
  rw [hsc]

/-- `End` preserves the entry under every key other than the ended context's
own. -/
theorem end_preserves_other_keys (ctx : Ctx) (st : State) (k : String)
    (hk : k ≠ md5 (TraceID ctx ++ SpanID ctx)) :
    tblLoad (End ctx none st).st.spanCount k = tblLoad st.spanCount k := by
  cases hl : ctx.lsc with
  | none => rw [end_none_pending_st, endSpanPart_none ctx st hl]
  | some lsc =>
    rw [end_spanCount_delete ctx st lsc hl]
    show tblLoad (tblDelete st.spanCount (md5 (TraceID ctx ++ SpanID ctx))) k
        = tblLoad st.spanCount k
    exact tblLoad_tblDelete_ne st.spanCount (md5 (TraceID ctx ++ SpanID ctx)) k hk

/-- `NewRootContext` succeeds exactly on ids both `FromHex` validators
accept. -/
theorem newRootContext_ok_iff (t s : String) :
    (NewRootContext t s).2 = none ↔ (validIDHex 32 t && validIDHex 16 s) = true := by
  unfold NewRootContext TraceIDFromHex SpanIDFromHex
  by_cases h1 : validIDHex 32 t = true <;> by_cases h2 : validIDHex 16 s = true <;>
    simp [h1, h2]

/-- A valid trace id is not the all-zero rendering. -/
theorem validIDHex_ne_zeroTraceID (t : String) (h : validIDHex 32 t = true) :
    (t != zeroTraceID) = true := by
  rw [bne_iff_ne]
  intro heq
  rw [heq] at h
  exact absurd h (by decide)

/-- The context `NewRootContext` returns on success. -/
theorem newRootContext_ok_ctx (t s : String) (ht : validIDHex 32 t = true)
    (hs : validIDHex 16 s = true) :
    NewRootContext t s = ({ otelSpan := some (.nonRecording ⟨t, s⟩), lsc := none }, none) := by
  unfold NewRootContext TraceIDFromHex SpanIDFromHex
  rw [if_pos ht, if_pos hs]

/-- **C1** — counterexample.  The claim states that `End(ctx)` sets the
`startSpan` flag of the `SpanContext` carried by `ctx` to false.  Contexts
are immutable (`End` returns no context, and the Go source assigns
`startSpan = false` to a local copy of the struct fetched from the context —
a dead store): after running `Start` and then `End`, the flag carried by the
context is still `true`. -/
theorem end_leaves_carried_flag_true :
    (End c1run.1 none c1run.2).st = c1post ∧
    carriedStartSpan c1run.1 = some true := by
  exact ⟨rfl, by decide⟩

/-- **C1** — amended.  `End` does not modify the carried `SpanContext` (the
`startSpan = false` assignment is a dead store on a local copy): every
context `Start` returns carries `startSpan = true`, and, contexts being
immutable values, carries it forever.  The underlying SDK span is however
ended by `End` (tracing enabled), and an ended otel span drops
`AddEvent`/`SetAttributes`/`RecordError` — so on any context whose span no
longer records, each of the five emission operations Debug/Info/Warn/Error/
Fatal equals its structured-log write alone (`Fatal` writes and exits when
logging is enabled, its deferred span recording skipped by `os.Exit`; with
logging disabled its deferred recording hits the ended span and is
dropped).  The concrete run exhibits all of it, including the info record
still being written with the correlation fields. -/
theorem end_noop_via_ended_span :
    (∀ (ctx : Ctx) (name : String) (fs : List Field) (st : State),
      carriedStartSpan (Start ctx name fs st).1 = some true) ∧
    (∀ (ctx : Ctx) (st : State) (lsc : LoggerSpanContext), ctx.lsc = some lsc →
      st.config.EnableTrace = true →
      endedIn (End ctx none st).st.spans lsc.span = true) ∧
    (∀ (ctx : Ctx) (st : State) (lsc : LoggerSpanContext) (m : String) (attrs : List Field),
      ctx.lsc = some lsc → endedIn st.spans lsc.span = true →
      Debug ctx m attrs st
        = (if st.enable_log = true then zapWrite st "debug" m (FieldsToZapFields ctx attrs)
           else st) ∧
      Info ctx m attrs st
        = (if st.enable_log = true then zapWrite st "info" m (FieldsToZapFields ctx attrs)
           else st) ∧
      Warn ctx m attrs st
        = (if st.enable_log = true then zapWrite st "warn" m (FieldsToZapFields ctx attrs)
           else st) ∧
      Error ctx m attrs st
        = (if st.enable_log = true then zapWrite st "error" m (FieldsToZapFields ctx attrs)
           else st) ∧
      Fatal ctx m attrs st
        = (if st.enable_log = true
           then { st := zapWrite st "fatal" m (FieldsToZapFields ctx attrs), exited := true }
           else { st := st, exited := false })) ∧
    (carriedStartSpan c1run.1 = some true ∧
     ((c1run.1.lsc.map (fun l => spanRecOf c1post l.span)).join.map (fun sp => sp.ended))
       = some true ∧
     (Debug c1run.1 "m" [] c1post).spans = c1post.spans ∧
     (Info c1run.1 "m" [] c1post).spans = c1post.spans ∧
     (Warn c1run.1 "m" [] c1post).spans = c1post.spans ∧
     (Error c1run.1 "m" [] c1post).spans = c1post.spans ∧
     (Fatal c1run.1 "m" [] c1post).st.spans = c1post.spans ∧
     (Info c1run.1 "m" [] c1post).logs
       = c1post.logs ++ [⟨"info", "m",
           [⟨"trace_id", .stringV (sdkTraceID 0)⟩, ⟨"span_id", .stringV (sdkSpanID 0)⟩]⟩]) := by
  refine ⟨start_flag_true, end_marks_ended, ?_, by decide⟩
  intro ctx st lsc m attrs hl hend
  exact ⟨Debug_of_ended ctx st lsc m attrs hl hend, Info_of_ended ctx st lsc m attrs hl hend,
    Warn_of_ended ctx st lsc m attrs hl hend, Error_of_ended ctx st lsc m attrs hl hend,
    Fatal_of_ended ctx st lsc m attrs hl hend⟩

/-- Witness for C1's amended claim: the universal clauses applied on the
concrete `Start`/`End` run. -/
theorem end_noop_via_ended_span_witness :
    carriedStartSpan (Start background "s" [] demoSt).1 = some true ∧
    endedIn (End c1run.1 none c1run.2).st.spans
      (SpanHandle.recording ⟨sdkTraceID 0, sdkSpanID 0⟩ 0) = true ∧
    Info c1run.1 "m" [] c1post
      = (if c1post.enable_log = true
         then zapWrite c1post "info" "m" (FieldsToZapFields c1run.1 []) else c1post) ∧
    Fatal c1run.1 "m" [] c1post
      = (if c1post.enable_log = true
         then { st := zapWrite c1post "fatal" "m" (FieldsToZapFields c1run.1 []),
                exited := true }
         else { st := c1post, exited := false }) := by
  refine ⟨end_noop_via_ended_span.1 background "s" [] demoSt, ?_, ?_, ?_⟩
  · exact end_noop_via_ended_span.2.1 c1run.1 c1run.2
      { span := .recording ⟨sdkTraceID 0, sdkSpanID 0⟩ 0, startSpan := true }
      (by decide) (by decide)
  · exact (end_noop_via_ended_span.2.2.1 c1run.1 c1post
      { span := .recording ⟨sdkTraceID 0, sdkSpanID 0⟩ 0, startSpan := true }
      "m" [] (by decide) (by decide)).2.1
  · exact (end_noop_via_ended_span.2.2.1 c1run.1 c1post
      { span := .recording ⟨sdkTraceID 0, sdkSpanID 0⟩ 0, startSpan := true }
      "m" [] (by decide) (by decide)).2.2.2.2

/-- **C4** — the code at the claim's failing input.  Two `Warn` calls on one
active traced context: each call reads the immutable carried `warnCount`
(always 0), increments its local copy to 1 and publishes `"warns" = 1`; the
second call publishes 1 again, not the cumulative 2 the claim requires. -/
theorem warns_attribute_stuck_at_one :
    ((c4run.1.lsc.map (fun l => spanRecOf c4post l.span)).join.map (fun sp => sp.attrs))
      = some [⟨"warns", .int64V 1⟩, ⟨"warns", .int64V 1⟩] ∧
    ((c4run.1.lsc.map (fun l => spanRecOf c4post l.span)).join.map (fun sp => sp.attrs))
      ≠ some [⟨"warns", .int64V 1⟩, ⟨"warns", .int64V 2⟩] := by
  decide

/-- **C2** (confirmed).  `Init` replaces a zero `MaxSpan` with 200; whenever
the count stored under a context's identity has reached `config.MaxSpan`,
`Start` returns (it cannot fail) a context whose span is not a real span and
leaves the state untouched; and in the concrete `MaxSpan = 5` run, of six
sequential children of one root the first five are real SDK spans while the
sixth gets the noop span, whose identity queries return the all-zero
(invalid) identifiers and on which emission records nothing. -/
theorem maxspan_ceiling_enforced :
    ((Init ({ Output := "none" } : Config) initState).map (fun st => st.config.MaxSpan)
      = some 200) ∧
    (∀ (ctx : Ctx) (name : String) (fs : List Field) (st : State),
      st.config.MaxSpan ≤ scGet st.spanCount (TraceID ctx) (SpanID ctx) →
      (Start ctx name fs st).2 = st ∧
      ((Start ctx name fs st).1.lsc.map (fun l => isRealSpan l.span)) = some false) ∧
    ((c2root.1.lsc.map (fun l => isRealSpan l.span)) = some true) ∧
    (((c2child 0).1.lsc.map (fun l => isRealSpan l.span)) = some true) ∧
    (((c2child 1).1.lsc.map (fun l => isRealSpan l.span)) = some true) ∧
    (((c2child 2).1.lsc.map (fun l => isRealSpan l.span)) = some true) ∧
    (((c2child 3).1.lsc.map (fun l => isRealSpan l.span)) = some true) ∧
    (((c2child 4).1.lsc.map (fun l => isRealSpan l.span)) = some true) ∧
    (((c2child 5).1.lsc.map (fun l => l.span)) = some SpanHandle.noop) ∧
    (TraceID (c2child 5).1 = zeroTraceID) ∧
    (SpanID (c2child 5).1 = zeroSpanID) ∧
    ((c2child 5).2 = (c2child 4).2) ∧
    (Info (c2child 5).1 "m" [] (c2child 5).2 = (c2child 5).2) ∧
    (countEntryFor (c2child 4).2 c2root.1 = some 5) := by
  refine ⟨by decide, ?_, by decide, by decide, by decide, by decide, by decide, by decide,
    by decide, by decide, by decide, by decide, by decide, by decide⟩
  intro ctx name fs st h
  simp only [Start]
  rw [if_pos h]
  simp [isRealSpan_noopTracerStart]

/-- Witness for C2's ceiling clause: the sixth `Start` under the saturated
root really degrades. -/
theorem maxspan_ceiling_witness :
    (Start c2root.1 "c" [] (c2child 4).2).2 = (c2child 4).2 ∧
    ((Start c2root.1 "c" [] (c2child 4).2).1.lsc.map (fun l => isRealSpan l.span))
      = some false :=
  maxspan_ceiling_enforced.2.1 c2root.1 "c" [] (c2child 4).2 (by decide)

/-- **C3** — counterexample.  One `Start` under the root's identity, matched
by its `End`: the claim says the table then holds no entry for the root
identity, but `End` deletes under the *ended child's own* identity, so the
root's entry (count 1) survives. -/
theorem spanCount_entry_survives_matched_child_end :
    countEntryFor c3afterChildEnd c3root.1 = some 1 ∧
    countEntryFor c3afterChildEnd c3root.1 ≠ none := by
  decide

/-- **C3** — amended.  Universally: `Start` (real-span branch) increments
the entry keyed by the *parent* context's identity; `End` replaces the table
by the deletion of exactly the key derived from the ended context's *own*
identity; every entry under any other key survives any `End` — so an entry
is removed only when `End` runs on a context carrying that same identity —
and in particular the empty-identity entry (which counts root `Start`s under
the background context) survives every `End` of a context whose own identity
rendering is nonempty, i.e. every `End` of a context that carries a span.
The concrete two-span run exhibits it: the child's matched `End` leaves the
root's entry at count 1, the root's own `End` removes it, and the
empty-identity entry is still there afterwards. -/
theorem spanCount_deleted_only_by_own_identity_end :
    (∀ (ctx : Ctx) (name : String) (fs : List Field) (st : State),
      ¬ st.config.MaxSpan ≤ scGet st.spanCount (TraceID ctx) (SpanID ctx) →
      st.config.EnableTrace = true →
      (Start ctx name fs st).2.spanCount
        = scIncrease st.spanCount (TraceID ctx) (SpanID ctx)) ∧
    (∀ (ctx : Ctx) (st : State) (lsc : LoggerSpanContext), ctx.lsc = some lsc →
      (End ctx none st).st.spanCount = scDelete st.spanCount (TraceID ctx) (SpanID ctx)) ∧
    (∀ (ctx : Ctx) (st : State) (k : String), k ≠ md5 (TraceID ctx ++ SpanID ctx) →
      tblLoad (End ctx none st).st.spanCount k = tblLoad st.spanCount k) ∧
    (∀ (ctx : Ctx) (st : State), TraceID ctx ++ SpanID ctx ≠ "" →
      tblLoad (End ctx none st).st.spanCount (md5 "") = tblLoad st.spanCount (md5 "")) ∧
    ((countEntryFor c3c1.2 c3root.1 = some 1) ∧
     (SpanID c3c1.1 ≠ SpanID c3root.1) ∧
     (countEntryFor c3afterChildEnd c3root.1 = some 1) ∧
     (countEntryFor c3afterRootEnd c3root.1 = none) ∧
     (tblLoad c3afterRootEnd.spanCount (md5 "") = some 1)) := by
  refine ⟨?_, ?_, ?_, ?_, by decide⟩
  · intro ctx name fs st hceil htrace
    simp only [Start]
    rw [if_neg hceil, if_pos htrace]
    rfl
  · intro ctx st lsc hl
    exact end_spanCount_delete ctx st lsc hl
  · intro ctx st k hk
    exact end_preserves_other_keys ctx st k hk
  · intro ctx st hne
    apply end_preserves_other_keys
    intro heq
    exact hne (md5_inj heq).symm

/-- Witness for C3's amended claim: the universal clauses applied on the
concrete two-span run. -/
theorem spanCount_end_witness :
    ((Start c3root.1 "c1" [] c3root.2).2.spanCount
       = scIncrease c3root.2.spanCount (TraceID c3root.1) (SpanID c3root.1)) ∧
    ((End c3c1.1 none c3c1.2).st.spanCount
       = scDelete c3c1.2.spanCount (TraceID c3c1.1) (SpanID c3c1.1)) ∧
    (tblLoad (End c3c1.1 none c3c1.2).st.spanCount (md5 "")
       = tblLoad c3c1.2.spanCount (md5 "")) := by
  refine ⟨?_, ?_, ?_⟩
  · exact spanCount_deleted_only_by_own_identity_end.1 c3root.1 "c1" [] c3root.2
      (by decide) (by decide)
  · exact spanCount_deleted_only_by_own_identity_end.2.1 c3c1.1 c3c1.2
      { span := .recording ⟨sdkTraceID 0, sdkSpanID 1⟩ 1, startSpan := true } (by decide)
  · exact spanCount_deleted_only_by_own_identity_end.2.2.2.1 c3c1.1 c3c1.2 (by decide)

/-- **C5** — counterexample.  Two trace ids of exactly 32 hex characters
(the all-zero id, and one containing an uppercase hex digit) for which the
claim predicts success, yet `NewRootContext` returns the identity-validation
error: otel additionally requires lowercase digits and a nonzero id. -/
theorem newRootContext_rejects_wellformed_hex :
    (zeroTraceID.length = 32 ∧ (zeroTraceID.data.all isHexDigitBroad) = true ∧
      (NewRootContext zeroTraceID "0123456789abcdef").2 = some "invalid traceID") ∧
    (upperHexTraceID.length = 32 ∧ (upperHexTraceID.data.all isHexDigitBroad) = true ∧
      (NewRootContext upperHexTraceID "0123456789abcdef").2 = some "invalid traceID") := by
  decide

/-- **C5** — amended.  `NewRootContext` succeeds exactly when the trace id
is 32 *lowercase* hex characters and not all zeros and the span id is 16
lowercase hex characters and not all zeros; and on success, a `Start` under
the returned context (tracing enabled, ceiling not reached) yields a child
whose `TraceID` equals the given trace id. -/
theorem newRootContext_validation_and_child_traceID :
    (∀ t s, (NewRootContext t s).2 = none ↔ (validIDHex 32 t && validIDHex 16 s) = true) ∧
    (∀ (t s : String) (st : State) (name : String) (fs : List Field),
      (NewRootContext t s).2 = none →
      st.config.EnableTrace = true →
      scGet st.spanCount "" "" < st.config.MaxSpan →
      TraceID (Start (NewRootContext t s).1 name fs st).1 = t) := by
  refine ⟨newRootContext_ok_iff, ?_⟩
  intro t s st name fs hok htrace hcount
  have hv := (newRootContext_ok_iff t s).mp hok
  rw [Bool.and_eq_true] at hv
  obtain ⟨hvt, hvs⟩ := hv
  rw [newRootContext_ok_ctx t s hvt hvs]
  simp only [Start, TraceID, SpanID]
  rw [if_neg (by omega : ¬ st.config.MaxSpan ≤ scGet st.spanCount "" "")]
  rw [if_pos htrace]
  simp only [sdkTracerStart]
  have hsc : ((Option.map SpanHandle.spanContext
        (some (SpanHandle.nonRecording ⟨t, s⟩))).getD ⟨zeroTraceID, zeroSpanID⟩).traceID
      = t := rfl
  rw [hsc]
  rw [if_pos (validIDHex_ne_zeroTraceID t hvt)]
  rfl

/-- Witness for C5's amended claim at concrete well-formed ids. -/
theorem newRootContext_validation_witness :
    TraceID (Start (NewRootContext c5traceID c5spanID).1 "child" [] demoSt).1 = c5traceID :=
  newRootContext_validation_and_child_traceID.2 c5traceID c5spanID demoSt "child" []
    (by decide) (by decide) (by decide)

/-- **C6** (confirmed).  When a panic unwinds into a deferred `End` in a
state where logging is configured (`logger != nil`), `End` recovers it,
appends exactly one error-level record with message `"panic"` carrying the
recovered value and the captured stack, does not re-raise, and still closes
(ends) the underlying span. -/
theorem end_recovers_panic_logs_once_and_closes_span (ctx : Ctx) (st : State) (p : String)
    (hlog : st.enable_log = true) :
    (End ctx (some p) st).panicked = none ∧
    (End ctx (some p) st).st.logs = st.logs ++ [⟨"error", "panic", panicLogFields p⟩] ∧
    (∀ lsc sc ref, ctx.lsc = some lsc → lsc.span = .recording sc ref →
      ref < st.spans.length → st.config.EnableTrace = true →
      (((End ctx (some p) st).st.spans.get? ref).map (fun sp => sp.ended)) = some true) := by
  have hzap := zapWrite_error st "panic" (panicLogFields p)
  have hEnd : End ctx (some p) st
      = if st.enable_log = true
        then { st := endSpanPart ctx (zapWrite st "error" "panic" (panicLogFields p)),
               panicked := none }
        else { st := st, panicked := some "nil pointer dereference" } := by
    rw [End.eq_def]
  rw [hEnd, if_pos hlog]
  refine ⟨rfl, ?_, ?_⟩
  · rw [endSpanPart_logs, hzap]
  · intro lsc sc ref hl hspan href htrace
    rw [hzap]
    set st1 : State := { st with logs := st.logs ++ [⟨"error", "panic", panicLogFields p⟩] }
      with hst1
    have htrace1 : st1.config.EnableTrace = true := htrace
    have href1 : ref < st1.spans.length := href
    have h1 : endSpanPart ctx st1
        = { (if st1.config.EnableTrace = true then spanEnd st1 lsc.span else st1) with
            spanCount := scDelete
              (if st1.config.EnableTrace = true then spanEnd st1 lsc.span else st1).spanCount
              (TraceID ctx) (SpanID ctx) } := by
      rw [endSpanPart.eq_def, hl]
    rw [h1, if_pos htrace1, hspan]
    have h2 : spanEnd st1 (SpanHandle.recording sc ref)
        = updateSpan st1 ref (fun sp => { sp with ended := true }) := by
      rw [spanEnd.eq_def]
    have hsp := List.get?_eq_get href1
    have h3 : updateSpan st1 ref (fun sp => { sp with ended := true })
        = { st1 with
            spans := st1.spans.set ref ({ st1.spans.get ⟨ref, href1⟩ with ended := true }) } := by
      rw [updateSpan.eq_def, hsp]
    rw [h2, h3]
    show ((st1.spans.set ref ({ st1.spans.get ⟨ref, href1⟩ with ended := true })).get?
        ref).map (fun sp => sp.ended) = some true
    rw [get?_set_self _ _ _ href1]
    rfl

/-- Witness for C6 on the concrete panicking run. -/
theorem end_recovers_panic_witness :
    (End c6run.1 (some "boom") c6run.2).panicked = none ∧
    (End c6run.1 (some "boom") c6run.2).st.logs
      = c6run.2.logs ++ [⟨"error", "panic", panicLogFields "boom"⟩] ∧
    (((End c6run.1 (some "boom") c6run.2).st.spans.get? 0).map (fun sp => sp.ended))
      = some true := by
  have h := end_recovers_panic_logs_once_and_closes_span c6run.1 c6run.2 "boom" (by decide)
  refine ⟨h.1, h.2.1, ?_⟩
  exact h.2.2 { span := .recording ⟨sdkTraceID 0, sdkSpanID 0⟩ 0, startSpan := true }
    ⟨sdkTraceID 0, sdkSpanID 0⟩ 0 (by decide) rfl (by decide) (by decide)

end Logx
